import Mathlib

/-!
# CineFlix movie catalog (`src/localstorage.js`) — shallow embedding

This file embeds the record model (`Pelicula`) and the collection manager
(`PeliculaManager`) of the CineFlix catalog in Lean 4 and proves the
specified properties about them.

Modelling conventions:

* JS strings are `String`.  `!s` on a string field is `s = ""` (the only
  falsy string).  JS `String.prototype.trim`, `toLowerCase`, `includes`
  are explicit character-list functions `jsTrim`, `jsToLower`,
  `listContainsSub`.  Decimal rating literals such as `8.7` are the
  exact rationals `mkRat 87 10`.  JS `Array.prototype.sort` is a stable
  sort, modelled by `List.insertionSort` on the comparator's
  "may stay before" relation.
* `this.ano = parseInt(ano)` and `this.calificacion = parseFloat(calificacion)`
  are modelled with the already-parsed numeric value (`Int`, `Rat`); the
  `NaN` result of an unparseable string is not modelled, and `!this.ano`
  (resp. `!this.calificacion`) is the `= 0` test, the only falsy number
  besides `NaN`.
* `fechaCreacion` (`new Date().toISOString()`) is an integer timestamp,
  supplied by the caller as a `now` parameter; the comparison
  `new Date(b.fechaCreacion) - new Date(a.fechaCreacion)` is integer
  comparison of those timestamps.
* `generarID` (`Date.now()` + random suffix) is modelled by an explicit
  generated-identifier parameter (`genId`, or a `gid : Nat → String`
  family when several records are built in one call).
* `new Date().getFullYear()` is an explicit `cy : Int` parameter and the
  platform `new URL(url)` constructor test behind `validarURL` is an
  explicit `urlOk : String → Bool` parameter.
* `localStorage` under the single key `cineflix_peliculas` is a `Store`
  value: `absent` (no entry), `corrupt` (`JSON.parse` throws), or
  `present data` with the parsed array.  `JSON.stringify` of an array is
  never the empty string, so a `present` store is always truthy in the
  `if (data)` test of `cargarPeliculas` — including `present []`,
  whose serialization is the truthy string `"[]"`.
* Methods of `PeliculaManager` become functions from `ManagerState`
  (the `peliculas` list plus the store) to a result paired with the next
  state; a method that performs no assignment to `this.peliculas` and no
  `localStorage.setItem` returns the state unchanged.
-/

namespace Cineflix

/-- JS `String.prototype.includes` on character lists: `sub` occurs as a
contiguous run inside `l` (the empty `sub` occurs in every string). -/
def listContainsSub (sub : List Char) : List Char → Bool
  | [] => sub.isEmpty
  | c :: t => sub.isPrefixOf (c :: t) || listContainsSub sub t

/-- JS `String.prototype.trim` as a character list: strip leading and
trailing whitespace. -/
def jsTrim (s : String) : List Char :=
  ((s.toList.dropWhile Char.isWhitespace).reverse.dropWhile Char.isWhitespace).reverse

/-- JS `String.prototype.toLowerCase` as a character list (the catalog's
searchable text is compared after ASCII lowering). -/
def jsToLower (s : String) : List Char :=
  s.toList.map Char.toLower

/-- The `Pelicula` record: fields exactly as assigned in the constructor
(`src/localstorage.js` lines 14–24). -/
structure Pelicula where
  id : String
  titulo : String
  genero : String
  director : String
  ano : Int
  calificacion : Rat
  descripcion : String
  imagen : String
  fechaCreacion : Int
deriving Repr, DecidableEq, Inhabited

/-- The `Pelicula` constructor.  `idArg` is the optional trailing `id`
parameter (default `null`, modelled by `none`); `this.id = id || this.generarID()`
takes the provided id unless it is absent or the empty string (both falsy),
in which case the freshly generated identifier `genId` is used.
`fechaCreacion` is captured as `now`. -/
def Pelicula.make (titulo genero director : String) (ano : Int) (calificacion : Rat)
    (descripcion imagen : String) (idArg : Option String) (genId : String)
    (now : Int) : Pelicula :=
  { id := match idArg with
      | none => genId
      | some s => if s = "" then genId else s
    titulo := titulo
    genero := genero
    director := director
    ano := ano
    calificacion := calificacion
    descripcion := descripcion
    imagen := imagen
    fechaCreacion := now }

/-- Result shape of `Pelicula.validar`: `{valido, errores}`. -/
structure Validacion where
  valido : Bool
  errores : List String
deriving Repr, DecidableEq

def msgTitulo : String := "El título debe tener al menos 2 caracteres"
def msgGenero : String := "Debe seleccionar un género"
def msgDirector : String := "El director debe tener al menos 2 caracteres"
def msgAno : String := "El año debe estar entre 1900 y el año actual + 5"
def msgCalificacion : String := "La calificación debe estar entre 1 y 10"
def msgDescripcion : String := "La descripción debe tener al menos 10 caracteres"
def msgImagen : String := "Debe proporcionar una URL de imagen válida"

/-- Violation of the title rule (line 41):
`!this.titulo || this.titulo.trim().length < 2`. -/
def vTitulo (p : Pelicula) : Bool :=
  p.titulo = "" || (jsTrim p.titulo).length < 2

/-- Violation of the genre rule (line 45): `!this.genero`. -/
def vGenero (p : Pelicula) : Bool :=
  p.genero = ""

/-- Violation of the director rule (line 49):
`!this.director || this.director.trim().length < 2`. -/
def vDirector (p : Pelicula) : Bool :=
  p.director = "" || (jsTrim p.director).length < 2

/-- Violation of the year rule (line 53):
`!this.ano || this.ano < 1900 || this.ano > new Date().getFullYear() + 5`. -/
def vAno (cy : Int) (p : Pelicula) : Bool :=
  p.ano = 0 || p.ano < 1900 || p.ano > cy + 5

/-- Violation of the rating rule (line 57):
`!this.calificacion || this.calificacion < 1 || this.calificacion > 10`. -/
def vCalificacion (p : Pelicula) : Bool :=
  p.calificacion = 0 || p.calificacion < 1 || p.calificacion > 10

/-- Violation of the description rule (line 61):
`!this.descripcion || this.descripcion.trim().length < 10`. -/
def vDescripcion (p : Pelicula) : Bool :=
  p.descripcion = "" || (jsTrim p.descripcion).length < 10

/-- Violation of the image rule (line 65):
`!this.imagen || !this.validarURL(this.imagen)`. -/
def vImagen (urlOk : String → Bool) (p : Pelicula) : Bool :=
  p.imagen = "" || !urlOk p.imagen

/-- `Pelicula.validar` (lines 38–73): each of the seven field rules pushes
its message onto `errores` when violated; `valido` iff no message was
pushed.  `cy` is `new Date().getFullYear()`; `urlOk` is the platform
`validarURL` test (`new URL(url)` succeeding). -/
def Pelicula.validar (cy : Int) (urlOk : String → Bool) (p : Pelicula) : Validacion :=
  let errores : List String :=
    (if vTitulo p then [msgTitulo] else []) ++
    (if vGenero p then [msgGenero] else []) ++
    (if vDirector p then [msgDirector] else []) ++
    (if vAno cy p then [msgAno] else []) ++
    (if vCalificacion p then [msgCalificacion] else []) ++
    (if vDescripcion p then [msgDescripcion] else []) ++
    (if vImagen urlOk p then [msgImagen] else [])
  { valido := errores.isEmpty, errores := errores }

/-- The plain object produced by `Pelicula.toJSON` (lines 93–105) and
stored in `localStorage`: same nine fields. -/
structure PeliculaJSON where
  id : String
  titulo : String
  genero : String
  director : String
  ano : Int
  calificacion : Rat
  descripcion : String
  imagen : String
  fechaCreacion : Int
deriving Repr, DecidableEq

/-- `Pelicula.toJSON`. -/
def Pelicula.toJSON (p : Pelicula) : PeliculaJSON :=
  { id := p.id, titulo := p.titulo, genero := p.genero, director := p.director,
    ano := p.ano, calificacion := p.calificacion, descripcion := p.descripcion,
    imagen := p.imagen, fechaCreacion := p.fechaCreacion }

/-- Reconstruction of one stored record in `cargarPeliculas` (lines 340–352):
`new Pelicula(p.titulo, …, p.imagen, p.id)` followed by
`pelicula.fechaCreacion = p.fechaCreacion`. -/
def reconstruir (genId : String) (now : Int) (p : PeliculaJSON) : Pelicula :=
  { Pelicula.make p.titulo p.genero p.director p.ano p.calificacion
      p.descripcion p.imagen (some p.id) genId now with
    fechaCreacion := p.fechaCreacion }

/-- The `localStorage` entry under `cineflix_peliculas`: absent
(`getItem` returns `null`), unreadable (`JSON.parse` throws), or present
with the parsed array of plain records.  `JSON.stringify` of an array is
at least `"[]"`, a truthy string, so `present data` always passes the
`if (data)` test — `present []` included. -/
inductive Store where
  | absent : Store
  | corrupt : Store
  | present : List PeliculaJSON → Store
deriving Repr, DecidableEq

/-- The eight sample records of `obtenerPeliculasIniciales` (lines 367–440),
each built by the constructor with no explicit id (so with a generated
one, `gid 0` … `gid 7`) and creation timestamp `now`. -/
def peliculasIniciales (gid : Nat → String) (now : Int) : List Pelicula :=
  [ Pelicula.make "Matrix" "Ciencia Ficción" "Lana Wachowski, Lilly Wachowski"
      1999 (mkRat 87 10)
      "Un hacker descubre la impactante verdad sobre su realidad y su papel en la guerra contra sus controladores."
      "https://image.tmdb.org/t/p/w500/f89U3ADr1oiB1s9GkdPOEpXUk5H.jpg"
      none (gid 0) now,
    Pelicula.make "El Padrino" "Drama" "Francis Ford Coppola"
      1972 (mkRat 92 10)
      "El patriarca envejecido de una dinastía del crimen organizado transfiere el control de su imperio clandestino a su hijo reacio."
      "https://image.tmdb.org/t/p/w500/3bhkrj58Vtu7enYsRolD1fZdja1.jpg"
      none (gid 1) now,
    Pelicula.make "Inception" "Ciencia Ficción" "Christopher Nolan"
      2010 (mkRat 88 10)
      "Un ladrón que roba secretos corporativos mediante el uso de tecnología de sueños compartidos recibe la tarea inversa de plantar una idea."
      "https://image.tmdb.org/t/p/w500/9gk7adHYeDvHkCSEqAvQNLV5Uge.jpg"
      none (gid 2) now,
    Pelicula.make "Forrest Gump" "Drama" "Robert Zemeckis"
      1994 (mkRat 88 10)
      "Las presidencias de Kennedy y Johnson, los eventos de Vietnam, Watergate y otros eventos históricos se desarrollan a través de la perspectiva de un hombre de Alabama."
      "https://image.tmdb.org/t/p/w500/arw2vcBveWOVZr6pxd9XTd1TdQa.jpg"
      none (gid 3) now,
    Pelicula.make "Pulp Fiction" "Acción" "Quentin Tarantino"
      1994 (mkRat 89 10)
      "Las vidas de dos asesinos a sueldo, un boxeador, la esposa de un gánster y dos bandidos se entrelazan en cuatro historias de violencia y redención."
      "https://image.tmdb.org/t/p/w500/d5iIlFn5s0ImszYzBPb8JPIfbXD.jpg"
      none (gid 4) now,
    Pelicula.make "Interestelar" "Ciencia Ficción" "Christopher Nolan"
      2014 (mkRat 86 10)
      "Un equipo de exploradores viaja a través de un agujero de gusano en el espacio en un intento de asegurar la supervivencia de la humanidad."
      "https://image.tmdb.org/t/p/w500/gEU2QniE6E77NI6lCU6MxlNBvIx.jpg"
      none (gid 5) now,
    Pelicula.make "El Señor de los Anillos: El Retorno del Rey" "Aventura" "Peter Jackson"
      2003 (mkRat 89 10)
      "Gandalf y Aragorn lideran el Mundo de los Hombres contra el ejército de Sauron para atraer su mirada de Frodo y Sam mientras se acercan al Monte del Destino."
      "https://image.tmdb.org/t/p/w500/rCzpDGLbOoPwLjy3OAm5NUPOTrC.jpg"
      none (gid 6) now,
    Pelicula.make "Gladiador" "Acción" "Ridley Scott"
      2000 (mkRat 85 10)
      "Un ex general romano busca venganza contra el corrupto emperador que asesinó a su familia y lo envió a la esclavitud."
      "https://image.tmdb.org/t/p/w500/ty8TGRuvJLPUmAR1H1nRIsgwvim.jpg"
      none (gid 7) now ]

/-- The manager's state: the in-memory `this.peliculas` list plus the
`localStorage` entry it mirrors to. -/
structure ManagerState where
  peliculas : List Pelicula
  store : Store
deriving Repr, DecidableEq

/-- `guardarPeliculas` (lines 450–458): serialize the whole list with
`toJSON` and `setItem` it wholesale (the write is modelled as
succeeding). -/
def guardarPeliculas (s : ManagerState) : ManagerState :=
  { s with store := Store.present (s.peliculas.map Pelicula.toJSON) }

/-- `cargarPeliculas` (lines 335–360) together with the seeding path
`obtenerPeliculasIniciales` (lines 366–445): if the store holds data,
map each plain record through the constructor, restoring its stored
`fechaCreacion` (no validation happens on this path); if the entry is
absent or parsing throws, build the sample records, assign them and
immediately persist them.  Returns the loaded list and the resulting
store. -/
def cargarPeliculas (gid : Nat → String) (now : Int) :
    Store → List Pelicula × Store
  | Store.present data =>
      (data.mapIdx (fun i p => reconstruir (gid i) now p), Store.present data)
  | Store.absent =>
      let seed := peliculasIniciales gid now
      (seed, Store.present (seed.map Pelicula.toJSON))
  | Store.corrupt =>
      let seed := peliculasIniciales gid now
      (seed, Store.present (seed.map Pelicula.toJSON))

/-- The `PeliculaManager` constructor (lines 326–329):
`this.peliculas = this.cargarPeliculas()`. -/
def mkManager (gid : Nat → String) (now : Int) (st : Store) : ManagerState :=
  let r := cargarPeliculas gid now st
  { peliculas := r.1, store := r.2 }

/-- Result shape `{exito, mensaje}` of the mutating operations. -/
structure OpResult where
  exito : Bool
  mensaje : String
deriving Repr, DecidableEq

def msgNoEncontrada : String := "Película no encontrada"

/-- `obtenerTodas` (lines 464–466): a spread copy of `this.peliculas`;
no assignment, no `setItem`, so the state is unchanged. -/
def obtenerTodas (s : ManagerState) : List Pelicula × ManagerState :=
  (s.peliculas, s)

/-- `obtenerPorId` (lines 473–475): first record whose `id` matches, or
`null`. -/
def obtenerPorId (s : ManagerState) (id : String) :
    Option Pelicula × ManagerState :=
  (s.peliculas.find? (fun p => p.id == id), s)

/-- `agregar` (lines 482–500): validate the caller-built record; on
failure, return the joined messages with no mutation; on success, push
it and persist.  (The success object also carries the record itself;
that extra field is not modelled.) -/
def agregar (cy : Int) (urlOk : String → Bool) (s : ManagerState)
    (pelicula : Pelicula) : OpResult × ManagerState :=
  let validacion := pelicula.validar cy urlOk
  if !validacion.valido then
    ({ exito := false, mensaje := String.intercalate "\n" validacion.errores }, s)
  else
    ({ exito := true, mensaje := "Película agregada exitosamente" },
      guardarPeliculas { s with peliculas := s.peliculas ++ [pelicula] })

/-- The update payload `datos` (the UI supplies all seven fields; `ano`
and `calificacion` are already numeric after `parseInt`/`parseFloat`). -/
structure DatosPelicula where
  titulo : String
  genero : String
  director : String
  ano : Int
  calificacion : Rat
  descripcion : String
  imagen : String
deriving Repr, DecidableEq

/-- The replacement record `actualizar` builds for a record found at
index `index`: `new Pelicula(datos.titulo, …, datos.imagen, id)` with its
`fechaCreacion` overwritten by the original's (lines 518–530). -/
def peliculaActualizada (now : Int) (genId : String) (s : ManagerState)
    (id : String) (datos : DatosPelicula) (index : Nat) : Pelicula :=
  { Pelicula.make datos.titulo datos.genero datos.director datos.ano
      datos.calificacion datos.descripcion datos.imagen (some id) genId now with
    fechaCreacion := (s.peliculas.getD index default).fechaCreacion }

/-- `actualizar` (lines 508–548): find the first index with the given
`id` (`findIndex`); if none, fail with the not-found message.  Otherwise
build the replacement record (`peliculaActualizada`) and validate it; on
failure return the joined messages with no mutation, on success write it
back at the same index and persist. -/
def actualizar (cy : Int) (now : Int) (genId : String) (urlOk : String → Bool)
    (s : ManagerState) (id : String) (datos : DatosPelicula) :
    OpResult × ManagerState :=
  match s.peliculas.findIdx? (fun p => p.id == id) with
  | none => ({ exito := false, mensaje := msgNoEncontrada }, s)
  | some index =>
      let nueva := peliculaActualizada now genId s id datos index
      let validacion := nueva.validar cy urlOk
      if !validacion.valido then
        ({ exito := false, mensaje := String.intercalate "\n" validacion.errores }, s)
      else
        ({ exito := true, mensaje := "Película actualizada exitosamente" },
          guardarPeliculas { s with peliculas := s.peliculas.set index nueva })

/-- `eliminar` (lines 555–572): find the first index with the given `id`;
if none, fail with the not-found message; otherwise `splice(index, 1)`
and persist. -/
def eliminar (s : ManagerState) (id : String) : OpResult × ManagerState :=
  match s.peliculas.findIdx? (fun p => p.id == id) with
  | none => ({ exito := false, mensaje := msgNoEncontrada }, s)
  | some index =>
      ({ exito := true, mensaje := "Película eliminada exitosamente" },
        guardarPeliculas { s with peliculas := s.peliculas.eraseIdx index })

/-- The per-record search test of `buscar` (lines 586–592): the
lowercased term occurs in the lowercased `titulo`, `director` or
`descripcion`. -/
def coincideBusqueda (terminoLower : List Char) (p : Pelicula) : Bool :=
  listContainsSub terminoLower (jsToLower p.titulo) ||
  listContainsSub terminoLower (jsToLower p.director) ||
  listContainsSub terminoLower (jsToLower p.descripcion)

/-- `buscar` (lines 579–593) on the plain list: a missing or blank term
returns everything (`obtenerTodas`, i.e. a copy); otherwise filter by
`coincideBusqueda` on the lowercased term. -/
def buscarList (termino : String) (l : List Pelicula) : List Pelicula :=
  if termino = "" || jsTrim termino = [] then l
  else l.filter (coincideBusqueda (jsToLower termino))

/-- Method form of `buscar`: reads `this.peliculas`, no mutation. -/
def buscar (s : ManagerState) (termino : String) :
    List Pelicula × ManagerState :=
  (buscarList termino s.peliculas, s)

/-- `filtrarPorGenero` (lines 600–606) on the plain list: the empty
genre returns everything; otherwise filter `p.genero === genero`. -/
def filtrarPorGeneroList (genero : String) (l : List Pelicula) : List Pelicula :=
  if genero = "" then l
  else l.filter (fun p => p.genero == genero)

/-- Method form of `filtrarPorGenero`. -/
def filtrarPorGenero (s : ManagerState) (genero : String) :
    List Pelicula × ManagerState :=
  (filtrarPorGeneroList genero s.peliculas, s)

/-- `buscarYFiltrar` (lines 614–635) on the plain list: start from a
copy of everything, filter by genre when one is selected, then filter by
the search test when the term is non-blank. -/
def buscarYFiltrarList (termino genero : String) (l : List Pelicula) :
    List Pelicula :=
  let resultado := l
  let resultado := if genero ≠ "" then resultado.filter (fun p => p.genero == genero)
    else resultado
  let resultado := if termino ≠ "" ∧ jsTrim termino ≠ [] then
      resultado.filter (coincideBusqueda (jsToLower termino))
    else resultado
  resultado

/-- Method form of `buscarYFiltrar`. -/
def buscarYFiltrar (s : ManagerState) (termino genero : String) :
    List Pelicula × ManagerState :=
  (buscarYFiltrarList termino genero s.peliculas, s)

/-- The comparator of `obtenerRecientes` (line 644),
`(a, b) => new Date(b.fechaCreacion) - new Date(a.fechaCreacion)`, as the
"a may stay before b" relation of a stable sort: the comparator is
non-positive exactly when `b.fechaCreacion ≤ a.fechaCreacion`. -/
def masReciente (a b : Pelicula) : Prop :=
  b.fechaCreacion ≤ a.fechaCreacion

instance : DecidableRel masReciente :=
  fun a b => inferInstanceAs (Decidable (b.fechaCreacion ≤ a.fechaCreacion))

instance : IsTotal Pelicula masReciente :=
  ⟨fun a b => le_total b.fechaCreacion a.fechaCreacion⟩

instance : IsTrans Pelicula masReciente :=
  ⟨fun _ _ _ hab hbc => le_trans hbc hab⟩

/-- `ordenarPorFechaDesc`: the `[...this.peliculas].sort(...)` step of
`obtenerRecientes`.  JS `Array.prototype.sort` is a stable sort,
modelled by `List.insertionSort`. -/
def ordenarPorFechaDesc (l : List Pelicula) : List Pelicula :=
  l.insertionSort masReciente

/-- `obtenerRecientes` (lines 642–646) on the plain list: stable sort of
a copy, most recent `fechaCreacion` first, then `slice(0, cantidad)`. -/
def obtenerRecientesList (cantidad : Nat) (l : List Pelicula) : List Pelicula :=
  (ordenarPorFechaDesc l).take cantidad

/-- Method form of `obtenerRecientes` with an explicit count. -/
def obtenerRecientes (s : ManagerState) (cantidad : Nat) :
    List Pelicula × ManagerState :=
  (obtenerRecientesList cantidad s.peliculas, s)

/-- `obtenerRecientes()` with the count left to its default `cantidad = 5`. -/
def obtenerRecientesDefault (s : ManagerState) : List Pelicula × ManagerState :=
  obtenerRecientes s 5

/-- "a may stay before b" for the descending branch of
`ordenarPorCalificacion` (comparator `b.calificacion - a.calificacion`). -/
def califDesc (a b : Pelicula) : Prop := b.calificacion ≤ a.calificacion

instance : DecidableRel califDesc :=
  fun a b => inferInstanceAs (Decidable (b.calificacion ≤ a.calificacion))

/-- "a may stay before b" for the ascending branch of
`ordenarPorCalificacion` (comparator `a.calificacion - b.calificacion`). -/
def califAsc (a b : Pelicula) : Prop := a.calificacion ≤ b.calificacion

instance : DecidableRel califAsc :=
  fun a b => inferInstanceAs (Decidable (a.calificacion ≤ b.calificacion))

/-- "a may stay before b" for the descending branch of `ordenarPorAno`. -/
def anoDesc (a b : Pelicula) : Prop := b.ano ≤ a.ano

instance : DecidableRel anoDesc :=
  fun a b => inferInstanceAs (Decidable (b.ano ≤ a.ano))

/-- "a may stay before b" for the ascending branch of `ordenarPorAno`. -/
def anoAsc (a b : Pelicula) : Prop := a.ano ≤ b.ano

instance : DecidableRel anoAsc :=
  fun a b => inferInstanceAs (Decidable (a.ano ≤ b.ano))

/-- `ordenarPorCalificacion` (lines 653–657) on the plain list: stable
sort of a copy, comparator `b.calificacion - a.calificacion` when
`descendente` and `a.calificacion - b.calificacion` otherwise. -/
def ordenarPorCalificacionList (descendente : Bool) (l : List Pelicula) :
    List Pelicula :=
  if descendente then l.insertionSort califDesc else l.insertionSort califAsc

/-- Method form of `ordenarPorCalificacion`. -/
def ordenarPorCalificacion (s : ManagerState) (descendente : Bool) :
    List Pelicula × ManagerState :=
  (ordenarPorCalificacionList descendente s.peliculas, s)

/-- `ordenarPorAno` (lines 664–668) on the plain list. -/
def ordenarPorAnoList (descendente : Bool) (l : List Pelicula) : List Pelicula :=
  if descendente then l.insertionSort anoDesc else l.insertionSort anoAsc

/-- Method form of `ordenarPorAno`. -/
def ordenarPorAno (s : ManagerState) (descendente : Bool) :
    List Pelicula × ManagerState :=
  (ordenarPorAnoList descendente s.peliculas, s)

/-!
## Concrete instantiations used by witnesses and counterexamples

The platform parameters (`urlOk`, `gid`) and a handful of concrete
records, used to evaluate the operations on explicit inputs.
-/

/-- A concrete instantiation of the platform URL test: accept any
`https://` URL (the real `new URL` constructor accepts these). -/
def urlHttps : String → Bool := fun s => "https://".toList.isPrefixOf s.toList

/-- A concrete generated-identifier family for test loads. -/
def gidTest : Nat → String := fun n => "movie_test_" ++ toString n

/-- A concrete record that passes every validation rule (current year
2025, URL test `urlHttps`). -/
def pelA : Pelicula :=
  { id := "a", titulo := "Matrix", genero := "Drama", director := "Alguien",
    ano := 2000, calificacion := 8,
    descripcion := "Una descripción suficientemente larga.",
    imagen := "https://example.com/a.jpg", fechaCreacion := 1 }

/-- A second valid record carrying the same id `"a"` as `pelA`. -/
def pelA2 : Pelicula :=
  { pelA with titulo := "Otra cinta", fechaCreacion := 2 }

/-- A valid record with a distinct id `"b"`. -/
def pelB : Pelicula :=
  { pelA with id := "b", titulo := "Inception", fechaCreacion := 3 }

/-- `pelA` with a one-character title: violates exactly the title rule. -/
def pelMalTitulo : Pelicula :=
  { pelA with titulo := "X" }

/-- A stored plain record whose `titulo` (one character) violates the
title rule: used to show that `cargarPeliculas` admits it unvalidated. -/
def badJSON : PeliculaJSON :=
  { id := "x1", titulo := "X", genero := "Drama", director := "Alguien",
    ano := 2000, calificacion := 5,
    descripcion := "Una descripción suficientemente larga.",
    imagen := "https://example.com/x.jpg", fechaCreacion := 0 }

/-- A reachable state with two records sharing the id `"a"`: load a
store holding `pelA`, then `agregar` the caller-built `pelA2`, which
carries the same explicit id and passes validation. -/
def estadoDuplicado : ManagerState :=
  (agregar 2025 urlHttps (mkManager gidTest 5 (Store.present [pelA.toJSON])) pelA2).2

/-- A complete but invalid update payload (blank title). -/
def datosInvalidos : DatosPelicula :=
  { titulo := "", genero := "Drama", director := "Alguien", ano := 2000,
    calificacion := 8, descripcion := "Una descripción suficientemente larga.",
    imagen := "https://example.com/a.jpg" }

/-- A complete valid update payload. -/
def datosValidos : DatosPelicula :=
  { titulo := "Matrix Recargado", genero := "Acción", director := "Otra Persona",
    ano := 2003, calificacion := 7,
    descripcion := "Otra descripción suficientemente larga.",
    imagen := "https://example.com/b.jpg" }

/-!
## Helper lemmas
-/

theorem list_set_getElem_self {α : Type} (l : List α) (i : Nat) (h : i < l.length) :
    l.set i l[i] = l := by
  apply List.ext_getElem <;> simp [List.getElem_set]
  intro j h1 h2 hij
  subst hij; rfl

theorem perm_getElem_cons_eraseIdx {α : Type} (l : List α) (i : Nat)
    (h : i < l.length) : l.Perm (l[i] :: l.eraseIdx i) := by
  rw [List.eraseIdx_eq_take_drop_succ]
  obtain ⟨x, hx⟩ : ∃ x, l[i] = x := ⟨_, rfl⟩
  rw [hx]
  have h2 : l = l.take i ++ (x :: l.drop (i + 1)) := by
    conv_lhs => rw [← List.take_append_drop i l, List.drop_eq_getElem_cons h, hx]
  conv_lhs => rw [h2]
  exact List.perm_middle

theorem findIdx?_some_lt {α : Type} {p : α → Bool} {l : List α} {i : Nat}
    (h : l.findIdx? p = some i) : i < l.length :=
  (List.findIdx?_eq_some_iff_findIdx_eq.mp h).1

theorem findIdx?_some_getElem {α : Type} {p : α → Bool} {l : List α} {i : Nat}
    (h : l.findIdx? p = some i) :
    ∀ hlt : i < l.length, p l[i] = true := by
  intro hlt
  obtain ⟨h1, h2⟩ := List.findIdx?_eq_some_iff_findIdx_eq.mp h
  subst h2
  exact List.findIdx_getElem

theorem find?_set_of_findIdx? {α : Type} {p : α → Bool} {x : α} (hp : p x = true) :
    ∀ {l : List α} {i : Nat}, l.findIdx? p = some i → (l.set i x).find? p = some x := by
  intro l
  induction l with
  | nil => intro i h; simp at h
  | cons a t ih =>
      intro i h
      rw [List.findIdx?_cons] at h
      by_cases ha : p a = true
      · simp only [ha, if_true, Option.some.injEq] at h
        subst h
        simp [List.set, List.find?, hp]
      · have hfa : p a = false := by revert ha; cases p a <;> simp
        rw [if_neg (by simp [hfa]), List.findIdx?_succ] at h
        obtain ⟨j, hj, rfl⟩ := Option.map_eq_some'.mp h
        have hset : (a :: t).set (j + 1) x = a :: t.set j x := rfl
        rw [hset]
        simp only [List.find?, hfa]
        exact ih hj

theorem countP_eraseIdx_of_findIdx? {α : Type} {p : α → Bool} {l : List α} {i : Nat}
    (h : l.findIdx? p = some i) :
    (l.eraseIdx i).countP p + 1 = l.countP p := by
  have hlt : i < l.length := findIdx?_some_lt h
  have hpi : p l[i] = true := findIdx?_some_getElem h hlt
  have hperm := (perm_getElem_cons_eraseIdx l i hlt).countP_eq p
  rw [List.countP_cons, hpi] at hperm
  simp only [if_pos trivial, reduceIte] at hperm
  omega

theorem find?_eraseIdx_of_count_one {α : Type} {p : α → Bool} {l : List α} {i : Nat}
    (h : l.findIdx? p = some i) (hcount : l.countP p = 1) :
    (l.eraseIdx i).find? p = none := by
  have h0 : (l.eraseIdx i).countP p = 0 := by
    have := countP_eraseIdx_of_findIdx? h
    omega
  rw [List.find?_eq_none]
  intro x hx
  exact List.countP_eq_zero.mp h0 x hx

theorem agregar_invalido_eq {cy : Int} {urlOk : String → Bool} {s : ManagerState}
    {q : Pelicula} (hv : (q.validar cy urlOk).valido = false) :
    agregar cy urlOk s q
      = ({ exito := false,
           mensaje := String.intercalate "\n" (q.validar cy urlOk).errores }, s) := by
  simp [agregar, hv]

theorem agregar_valido_eq {cy : Int} {urlOk : String → Bool} {s : ManagerState}
    {q : Pelicula} (hv : (q.validar cy urlOk).valido = true) :
    agregar cy urlOk s q
      = ({ exito := true, mensaje := "Película agregada exitosamente" },
         guardarPeliculas { s with peliculas := s.peliculas ++ [q] }) := by
  simp [agregar, hv]

theorem actualizar_none_eq {cy now : Int} {genId : String} {urlOk : String → Bool}
    {s : ManagerState} {id : String} {datos : DatosPelicula}
    (h : s.peliculas.findIdx? (fun p => p.id == id) = none) :
    actualizar cy now genId urlOk s id datos
      = ({ exito := false, mensaje := msgNoEncontrada }, s) := by
  unfold actualizar
  rw [h]

theorem actualizar_some_invalido_eq {cy now : Int} {genId : String}
    {urlOk : String → Bool} {s : ManagerState} {id : String}
    {datos : DatosPelicula} {i : Nat}
    (h : s.peliculas.findIdx? (fun p => p.id == id) = some i)
    (hv : ((peliculaActualizada now genId s id datos i).validar cy urlOk).valido
        = false) :
    actualizar cy now genId urlOk s id datos
      = ({ exito := false,
           mensaje := String.intercalate "\n"
             ((peliculaActualizada now genId s id datos i).validar cy urlOk).errores },
         s) := by
  unfold actualizar
  rw [h]
  simp [hv]

theorem actualizar_some_valido_eq {cy now : Int} {genId : String}
    {urlOk : String → Bool} {s : ManagerState} {id : String}
    {datos : DatosPelicula} {i : Nat}
    (h : s.peliculas.findIdx? (fun p => p.id == id) = some i)
    (hv : ((peliculaActualizada now genId s id datos i).validar cy urlOk).valido
        = true) :
    actualizar cy now genId urlOk s id datos
      = ({ exito := true, mensaje := "Película actualizada exitosamente" },
         guardarPeliculas
           { s with
             peliculas :=
               s.peliculas.set i (peliculaActualizada now genId s id datos i) }) := by
  unfold actualizar
  rw [h]
  simp [hv]

theorem vTitulo_make (t g d : String) (a : Int) (c : Rat) (de im : String)
    (idArg : Option String) (gen : String) (now : Int) :
    vTitulo (Pelicula.make t g d a c de im idArg gen now)
      = (t = "" || (jsTrim t).length < 2) := rfl

theorem vGenero_make (t g d : String) (a : Int) (c : Rat) (de im : String)
    (idArg : Option String) (gen : String) (now : Int) :
    vGenero (Pelicula.make t g d a c de im idArg gen now) = decide (g = "") := rfl

theorem vDirector_make (t g d : String) (a : Int) (c : Rat) (de im : String)
    (idArg : Option String) (gen : String) (now : Int) :
    vDirector (Pelicula.make t g d a c de im idArg gen now)
      = (d = "" || (jsTrim d).length < 2) := rfl

theorem vAno_make (cy : Int) (t g d : String) (a : Int) (c : Rat) (de im : String)
    (idArg : Option String) (gen : String) (now : Int) :
    vAno cy (Pelicula.make t g d a c de im idArg gen now)
      = (a = 0 || a < 1900 || a > cy + 5) := rfl

theorem vCalificacion_make (t g d : String) (a : Int) (c : Rat) (de im : String)
    (idArg : Option String) (gen : String) (now : Int) :
    vCalificacion (Pelicula.make t g d a c de im idArg gen now)
      = (c = 0 || c < 1 || c > 10) := rfl

theorem vDescripcion_make (t g d : String) (a : Int) (c : Rat) (de im : String)
    (idArg : Option String) (gen : String) (now : Int) :
    vDescripcion (Pelicula.make t g d a c de im idArg gen now)
      = (de = "" || (jsTrim de).length < 10) := rfl

theorem vImagen_make (urlOk : String → Bool) (t g d : String) (a : Int) (c : Rat)
    (de im : String) (idArg : Option String) (gen : String) (now : Int) :
    vImagen urlOk (Pelicula.make t g d a c de im idArg gen now)
      = (im = "" || !urlOk im) := rfl

theorem validar_valido_of_reglas {cy : Int} {urlOk : String → Bool} {r : Pelicula}
    (h1 : vTitulo r = false) (h2 : vGenero r = false) (h3 : vDirector r = false)
    (h4 : vAno cy r = false) (h5 : vCalificacion r = false)
    (h6 : vDescripcion r = false) (h7 : vImagen urlOk r = false) :
    (r.validar cy urlOk).valido = true := by
  simp [Pelicula.validar, h1, h2, h3, h4, h5, h6, h7]

/-!
## Claims
-/

/-- C9: every query operation of the manager (`obtenerTodas`,
`obtenerPorId`, `buscar`, `filtrarPorGenero`, `buscarYFiltrar`,
`obtenerRecientes` — with or without an explicit count —,
`ordenarPorCalificacion`, `ordenarPorAno`) is pure: for every state and
every argument it returns the state exactly as it was (so `peliculas`
keeps the same elements in the same order and the persistent store is
not written), and `obtenerTodas` returns (a copy of) `peliculas`. -/
theorem consultas_puras (s : ManagerState) (id termino genero : String)
    (cantidad : Nat) (descendente : Bool) :
    (obtenerTodas s).2 = s ∧ (obtenerTodas s).1 = s.peliculas ∧
    (obtenerPorId s id).2 = s ∧
    (buscar s termino).2 = s ∧
    (filtrarPorGenero s genero).2 = s ∧
    (buscarYFiltrar s termino genero).2 = s ∧
    (obtenerRecientes s cantidad).2 = s ∧
    (obtenerRecientesDefault s).2 = s ∧
    (ordenarPorCalificacion s descendente).2 = s ∧
    (ordenarPorAno s descendente).2 = s :=
  ⟨rfl, rfl, rfl, rfl, rfl, rfl, rfl, rfl, rfl, rfl⟩

/-- C1 (counterexample): a store that holds the serialization of an
empty collection (`JSON.stringify([])`, the truthy string `"[]"`,
i.e. `Store.present []`) re-loads as the empty collection, not as the
default seed set — which is nonempty. -/
theorem cargar_almacen_vacio_counterexample :
    (cargarPeliculas gidTest 0 (Store.present [])).1 = [] ∧
    peliculasIniciales gidTest 0 ≠ [] :=
  ⟨rfl, by decide⟩

/-- C1 (amended): whenever the store is absent or unreadable, Load seeds
the collection with the fixed built-in default set and immediately
persists it; but when the store holds parseable data — the persisted
empty sequence included — Load returns exactly the deserialized records,
so re-loading a persisted empty collection yields an empty collection,
not the default seed set. -/
theorem cargar_siembra_solo_sin_datos (gid : Nat → String) (now : Int) :
    (cargarPeliculas gid now Store.absent =
      (peliculasIniciales gid now,
        Store.present ((peliculasIniciales gid now).map Pelicula.toJSON))) ∧
    (cargarPeliculas gid now Store.corrupt =
      (peliculasIniciales gid now,
        Store.present ((peliculasIniciales gid now).map Pelicula.toJSON))) ∧
    (∀ data : List PeliculaJSON,
      cargarPeliculas gid now (Store.present data) =
        (data.mapIdx (fun i p => reconstruir (gid i) now p), Store.present data)) ∧
    (cargarPeliculas gid now (Store.present [])).1 = [] :=
  ⟨rfl, rfl, fun _ => rfl, rfl⟩

/-- C10: when no record carries the given id (`obtenerPorId` yields
`none`), `actualizar` fails with the not-found message for every
payload — the invalid ones included — and returns the state exactly as
it was (`peliculas` and the store untouched); no replacement record's
validation messages can surface, so not-found takes precedence over
validation. -/
theorem actualizar_no_encontrada (cy now : Int) (genId : String)
    (urlOk : String → Bool) (s : ManagerState) (id : String)
    (datos : DatosPelicula) (h : (obtenerPorId s id).1 = none) :
    actualizar cy now genId urlOk s id datos
      = ({ exito := false, mensaje := msgNoEncontrada }, s) := by
  have hidx : s.peliculas.findIdx? (fun p => p.id == id) = none := by
    rw [List.findIdx?_eq_none_iff]
    intro x hx
    have hx2 := List.find?_eq_none.mp h x hx
    revert hx2; cases (x.id == id) <;> simp
  unfold actualizar
  rw [hidx]

/-- C10 witness: on a state holding only `pelA` (id `"a"`), updating the
absent id `"zzz"` with an invalid payload still reports not-found and
changes nothing. -/
theorem actualizar_no_encontrada_witness :
    actualizar 2025 9 "g" urlHttps
        { peliculas := [pelA], store := Store.present [] } "zzz" datosInvalidos
      = ({ exito := false, mensaje := msgNoEncontrada },
         { peliculas := [pelA], store := Store.present [] }) :=
  actualizar_no_encontrada 2025 9 "g" urlHttps
    { peliculas := [pelA], store := Store.present [] } "zzz" datosInvalidos
    (by decide)

/-- C7: combined search-and-filter agrees with filtering the search
result by genre and with searching the genre-filtered list (the two
orders agree element-for-element), and it equals the subsequence of the
collection, in original order, of the records satisfying both
predicates, where a blank/empty term and an empty genre each match
everything. -/
theorem buscarYFiltrar_conmuta (termino genero : String) (l : List Pelicula) :
    buscarYFiltrarList termino genero l
      = filtrarPorGeneroList genero (buscarList termino l) ∧
    buscarYFiltrarList termino genero l
      = buscarList termino (filtrarPorGeneroList genero l) ∧
    buscarYFiltrarList termino genero l
      = l.filter (fun p =>
          (if termino = "" ∨ jsTrim termino = [] then true
            else coincideBusqueda (jsToLower termino) p) &&
          (if genero = "" then true else p.genero == genero)) := by
  by_cases ht1 : termino = "" <;> by_cases ht2 : jsTrim termino = [] <;>
    by_cases hg : genero = "" <;>
      simp [buscarYFiltrarList, buscarList, filtrarPorGeneroList, ht1, ht2, hg,
        List.filter_filter, Bool.and_comm]

/-- C3: `validar` evaluates all seven rules with no short-circuit and
its error list is exactly the messages of the violated rules in
rule-declaration order (title, genre, director, year, rating,
description, image URL); `valido` holds iff the error list is empty; in
particular a record violating no rule gets zero errors, and a record
violating exactly one rule gets exactly that rule's message and no
other. -/
theorem validar_caracterizacion (cy : Int) (urlOk : String → Bool) (p : Pelicula) :
    ((p.validar cy urlOk).valido = true ↔ (p.validar cy urlOk).errores = []) ∧
    (p.validar cy urlOk).errores =
      (List.filter Prod.fst
        [(vTitulo p, msgTitulo), (vGenero p, msgGenero),
         (vDirector p, msgDirector), (vAno cy p, msgAno),
         (vCalificacion p, msgCalificacion), (vDescripcion p, msgDescripcion),
         (vImagen urlOk p, msgImagen)]).map Prod.snd ∧
    (vTitulo p = false → vGenero p = false → vDirector p = false →
      vAno cy p = false → vCalificacion p = false → vDescripcion p = false →
      vImagen urlOk p = false → (p.validar cy urlOk).errores = []) ∧
    (vTitulo p = true → vGenero p = false → vDirector p = false →
      vAno cy p = false → vCalificacion p = false → vDescripcion p = false →
      vImagen urlOk p = false → (p.validar cy urlOk).errores = [msgTitulo]) ∧
    (vTitulo p = false → vGenero p = true → vDirector p = false →
      vAno cy p = false → vCalificacion p = false → vDescripcion p = false →
      vImagen urlOk p = false → (p.validar cy urlOk).errores = [msgGenero]) ∧
    (vTitulo p = false → vGenero p = false → vDirector p = true →
      vAno cy p = false → vCalificacion p = false → vDescripcion p = false →
      vImagen urlOk p = false → (p.validar cy urlOk).errores = [msgDirector]) ∧
    (vTitulo p = false → vGenero p = false → vDirector p = false →
      vAno cy p = true → vCalificacion p = false → vDescripcion p = false →
      vImagen urlOk p = false → (p.validar cy urlOk).errores = [msgAno]) ∧
    (vTitulo p = false → vGenero p = false → vDirector p = false →
      vAno cy p = false → vCalificacion p = true → vDescripcion p = false →
      vImagen urlOk p = false → (p.validar cy urlOk).errores = [msgCalificacion]) ∧
    (vTitulo p = false → vGenero p = false → vDirector p = false →
      vAno cy p = false → vCalificacion p = false → vDescripcion p = true →
      vImagen urlOk p = false → (p.validar cy urlOk).errores = [msgDescripcion]) ∧
    (vTitulo p = false → vGenero p = false → vDirector p = false →
      vAno cy p = false → vCalificacion p = false → vDescripcion p = false →
      vImagen urlOk p = true → (p.validar cy urlOk).errores = [msgImagen]) := by
  have key : (p.validar cy urlOk).errores =
      (List.filter Prod.fst
        [(vTitulo p, msgTitulo), (vGenero p, msgGenero),
         (vDirector p, msgDirector), (vAno cy p, msgAno),
         (vCalificacion p, msgCalificacion), (vDescripcion p, msgDescripcion),
         (vImagen urlOk p, msgImagen)]).map Prod.snd := by
    unfold Pelicula.validar
    cases vTitulo p <;> cases vGenero p <;> cases vDirector p <;>
      cases vAno cy p <;> cases vCalificacion p <;> cases vDescripcion p <;>
        cases vImagen urlOk p <;> rfl
  refine ⟨?_, key, ?_, ?_, ?_, ?_, ?_, ?_, ?_, ?_⟩
  · simp [Pelicula.validar, List.isEmpty_iff]
  all_goals intro h1 h2 h3 h4 h5 h6 h7
  all_goals rw [key]; simp [h1, h2, h3, h4, h5, h6, h7]

/-- C3 witness: the fully valid `pelA` gets zero errors, and
`pelMalTitulo` — violating only the title rule — gets exactly the title
message. -/
theorem validar_caracterizacion_witness :
    (pelA.validar 2025 urlHttps).errores = [] ∧
    (pelMalTitulo.validar 2025 urlHttps).errores = [msgTitulo] :=
  ⟨(validar_caracterizacion 2025 urlHttps pelA).2.2.1 (by decide) (by decide)
      (by decide) (by decide) (by decide) (by decide) (by decide),
    (validar_caracterizacion 2025 urlHttps pelMalTitulo).2.2.2.1 (by decide)
      (by decide) (by decide) (by decide) (by decide) (by decide) (by decide)⟩

/-- C5 (counterexample): `agregar` performs no id-uniqueness check.
Starting from the reachable state loaded from a store holding `pelA`
(id `"a"`), adding the caller-built valid record `pelA2` with the same
explicit id succeeds and leaves two records with id `"a"` in the
collection. -/
theorem agregar_id_duplicado_counterexample :
    (mkManager gidTest 5 (Store.present [pelA.toJSON])).peliculas.map Pelicula.id
        = ["a"] ∧
    (agregar 2025 urlHttps (mkManager gidTest 5 (Store.present [pelA.toJSON]))
        pelA2).1.exito = true ∧
    estadoDuplicado.peliculas.map Pelicula.id = ["a", "a"] ∧
    ¬ (estadoDuplicado.peliculas.map Pelicula.id).Nodup := by decide

/-- C5 (amended): id uniqueness is not checked by `agregar`, so it can
be broken by adding a caller-built record with an existing id; it is,
however, preserved by every operation that does not introduce a
duplicate id: `eliminar` always, `actualizar` for a non-empty id (the
replacement keeps the same id), and `agregar` whenever the added
record's id is not already in the collection. -/
theorem ids_unicos_preservados (cy now : Int) (genId : String)
    (urlOk : String → Bool) (s : ManagerState) (id : String)
    (datos : DatosPelicula) (q : Pelicula)
    (hnodup : (s.peliculas.map Pelicula.id).Nodup) :
    ((eliminar s id).2.peliculas.map Pelicula.id).Nodup ∧
    (id ≠ "" →
      ((actualizar cy now genId urlOk s id datos).2.peliculas.map Pelicula.id).Nodup) ∧
    (q.id ∉ s.peliculas.map Pelicula.id →
      ((agregar cy urlOk s q).2.peliculas.map Pelicula.id).Nodup) := by
  refine ⟨?_, ?_, ?_⟩
  · unfold eliminar
    cases h : s.peliculas.findIdx? (fun p => p.id == id) with
    | none => exact hnodup
    | some i =>
        exact hnodup.sublist ((List.eraseIdx_sublist _ i).map Pelicula.id)
  · intro hid
    cases h : s.peliculas.findIdx? (fun p => p.id == id) with
    | none =>
        rw [actualizar_none_eq h]
        exact hnodup
    | some i =>
        have hlt : i < s.peliculas.length := findIdx?_some_lt h
        have hpi : (s.peliculas[i].id == id) = true := findIdx?_some_getElem h hlt
        have hidi : s.peliculas[i].id = id := eq_of_beq hpi
        cases hv : ((peliculaActualizada now genId s id datos i).validar cy
            urlOk).valido with
        | false =>
            rw [actualizar_some_invalido_eq h hv]
            exact hnodup
        | true =>
            rw [actualizar_some_valido_eq h hv]
            have hmk : (peliculaActualizada now genId s id datos i).id = id := by
              simp [peliculaActualizada, Pelicula.make, hid]
            have hlt2 : i < (s.peliculas.map Pelicula.id).length := by simpa using hlt
            have hmapset :
                (s.peliculas.set i
                    (peliculaActualizada now genId s id datos i)).map Pelicula.id
                  = s.peliculas.map Pelicula.id := by
              rw [List.map_set, hmk]
              have hgm : (s.peliculas.map Pelicula.id).get ⟨i, hlt2⟩ = id := by
                simp only [List.get_eq_getElem, List.getElem_map]
                exact hidi
              conv_lhs => rw [← hgm]
              exact list_set_getElem_self _ i hlt2
            simpa [guardarPeliculas, hmapset] using hnodup
  · intro hq
    cases hv : (q.validar cy urlOk).valido with
    | false =>
        rw [agregar_invalido_eq hv]
        exact hnodup
    | true =>
        rw [agregar_valido_eq hv]
        simp only [guardarPeliculas, List.map_append, List.map_cons, List.map_nil]
        refine List.Nodup.append hnodup (List.nodup_singleton _) ?_
        intro a ha hb
        rw [List.mem_singleton] at hb
        exact hq (hb ▸ ha)

/-- C5 witness: on a state holding only `pelA`, deleting id `"a"`,
updating id `"a"` with a valid payload, and adding `pelB` (fresh id
`"b"`) each keep the ids duplicate-free. -/
theorem ids_unicos_preservados_witness :
    ((eliminar { peliculas := [pelA], store := Store.present [] } "a").2.peliculas.map
        Pelicula.id).Nodup ∧
    ((actualizar 2025 9 "g" urlHttps { peliculas := [pelA], store := Store.present [] }
        "a" datosValidos).2.peliculas.map Pelicula.id).Nodup ∧
    ((agregar 2025 urlHttps { peliculas := [pelA], store := Store.present [] }
        pelB).2.peliculas.map Pelicula.id).Nodup := by
  have h := ids_unicos_preservados 2025 9 "g" urlHttps
    { peliculas := [pelA], store := Store.present [] } "a" datosValidos pelB
    (by decide)
  exact ⟨h.1, h.2.1 (by decide), h.2.2 (by decide)⟩

/-- C6 (counterexample): in the reachable state `estadoDuplicado` (two
records with id `"a"`), `eliminar "a"` removes only the first record, so
a subsequent `obtenerPorId "a"` still finds one — it does not signal
not-found as the claim requires for every collection state. -/
theorem eliminar_counterexample :
    estadoDuplicado.peliculas.map Pelicula.id = ["a", "a"] ∧
    (eliminar estadoDuplicado "a").2.peliculas.length + 1
        = estadoDuplicado.peliculas.length ∧
    (obtenerPorId (eliminar estadoDuplicado "a").2 "a").1 = some pelA2 ∧
    ¬ (obtenerPorId (eliminar estadoDuplicado "a").2 "a").1 = none := by decide

/-- C6 (amended): for an id with a match, `eliminar` removes the first
record carrying it — later elements shift down one position, the order
of the remaining elements is preserved — reports success, persists, and
shrinks the collection by exactly one; a subsequent `obtenerPorId`
signals not-found provided the id occurred exactly once (always the case
when ids are unique).  For an id with no match it fails with the
not-found message and changes nothing. -/
theorem eliminar_especificacion (s : ManagerState) (id : String) :
    (∀ i, s.peliculas.findIdx? (fun p => p.id == id) = some i →
      (eliminar s id).1
          = { exito := true, mensaje := "Película eliminada exitosamente" } ∧
      (eliminar s id).2.peliculas
          = s.peliculas.take i ++ s.peliculas.drop (i + 1) ∧
      (eliminar s id).2.peliculas.length + 1 = s.peliculas.length ∧
      (eliminar s id).2.store
          = Store.present ((eliminar s id).2.peliculas.map Pelicula.toJSON) ∧
      (s.peliculas.countP (fun p => p.id == id) = 1 →
        (obtenerPorId (eliminar s id).2 id).1 = none)) ∧
    (s.peliculas.findIdx? (fun p => p.id == id) = none →
      eliminar s id = ({ exito := false, mensaje := msgNoEncontrada }, s)) := by
  constructor
  · intro i hi
    have hlt : i < s.peliculas.length := findIdx?_some_lt hi
    unfold eliminar
    rw [hi]
    refine ⟨rfl, ?_, ?_, rfl, ?_⟩
    · simp [guardarPeliculas, List.eraseIdx_eq_take_drop_succ]
    · simp only [guardarPeliculas, List.length_eraseIdx, if_pos hlt]
      omega
    · intro hcount
      simp only [obtenerPorId, guardarPeliculas]
      exact find?_eraseIdx_of_count_one hi hcount
  · intro hn
    unfold eliminar
    rw [hn]

/-- C6 witness: deleting id `"a"` from `[pelA, pelB]` leaves `[pelB]`
and `obtenerPorId "a"` then signals not-found. -/
theorem eliminar_especificacion_witness :
    (eliminar { peliculas := [pelA, pelB], store := Store.present [] } "a").2.peliculas
      = [pelA, pelB].take 0 ++ [pelA, pelB].drop 1 ∧
    (obtenerPorId
        (eliminar { peliculas := [pelA, pelB], store := Store.present [] } "a").2
        "a").1 = none := by
  have h := (eliminar_especificacion
    { peliculas := [pelA, pelB], store := Store.present [] } "a").1 0 (by decide)
  exact ⟨h.2.1, h.2.2.2.2 (by decide)⟩

/-- C4: for an id found in the collection (first index `i`),
`actualizar` builds a replacement record whose `id` is the same, whose
other fields are exactly the supplied payload and whose `fechaCreacion`
is the original record's; if that record fails validation the operation
fails with the joined validation messages and the state — `peliculas`
and store — is completely unchanged; if it passes, the replacement is
written at the original index `i` (not remove+append) and a subsequent
`obtenerPorId` returns it.  For an id with no match, `actualizar` fails
with the not-found error. -/
theorem actualizar_especificacion (cy now : Int) (genId : String)
    (urlOk : String → Bool) (s : ManagerState) (id : String)
    (datos : DatosPelicula) (hid : id ≠ "") :
    (s.peliculas.findIdx? (fun p => p.id == id) = none →
      actualizar cy now genId urlOk s id datos
        = ({ exito := false, mensaje := msgNoEncontrada }, s)) ∧
    (∀ i, s.peliculas.findIdx? (fun p => p.id == id) = some i →
      ((peliculaActualizada now genId s id datos i).id = id ∧
        (peliculaActualizada now genId s id datos i).titulo = datos.titulo ∧
        (peliculaActualizada now genId s id datos i).genero = datos.genero ∧
        (peliculaActualizada now genId s id datos i).director = datos.director ∧
        (peliculaActualizada now genId s id datos i).ano = datos.ano ∧
        (peliculaActualizada now genId s id datos i).calificacion
            = datos.calificacion ∧
        (peliculaActualizada now genId s id datos i).descripcion
            = datos.descripcion ∧
        (peliculaActualizada now genId s id datos i).imagen = datos.imagen ∧
        (peliculaActualizada now genId s id datos i).fechaCreacion
            = (s.peliculas.getD i default).fechaCreacion) ∧
      (((peliculaActualizada now genId s id datos i).validar cy urlOk).valido
            = false →
        actualizar cy now genId urlOk s id datos
          = ({ exito := false,
               mensaje := String.intercalate "\n"
                 ((peliculaActualizada now genId s id datos i).validar
                   cy urlOk).errores }, s)) ∧
      (((peliculaActualizada now genId s id datos i).validar cy urlOk).valido
            = true →
        (actualizar cy now genId urlOk s id datos).1
            = { exito := true, mensaje := "Película actualizada exitosamente" } ∧
        (actualizar cy now genId urlOk s id datos).2.peliculas
            = s.peliculas.set i (peliculaActualizada now genId s id datos i) ∧
        (obtenerPorId (actualizar cy now genId urlOk s id datos).2 id).1
            = some (peliculaActualizada now genId s id datos i))) := by
  constructor
  · exact actualizar_none_eq
  · intro i hi
    have hmk : (peliculaActualizada now genId s id datos i).id = id := by
      simp [peliculaActualizada, Pelicula.make, hid]
    refine ⟨⟨hmk, rfl, rfl, rfl, rfl, rfl, rfl, rfl, rfl⟩, ?_, ?_⟩
    · intro hv
      exact actualizar_some_invalido_eq hi hv
    · intro hv
      rw [actualizar_some_valido_eq hi hv]
      refine ⟨rfl, rfl, ?_⟩
      simp only [obtenerPorId, guardarPeliculas]
      exact find?_set_of_findIdx? (by simp [hmk]) hi

/-- C4 witness: updating id `"a"` on `[pelA]` with the valid payload
`datosValidos` keeps `fechaCreacion = 1` (the pre-update value) and
stores the new fields at the original position, as `obtenerPorId`
then reports. -/
theorem actualizar_especificacion_witness :
    (obtenerPorId
        (actualizar 2025 9 "g" urlHttps
          { peliculas := [pelA], store := Store.present [] } "a" datosValidos).2
        "a").1
      = some
          { id := "a", titulo := "Matrix Recargado", genero := "Acción",
            director := "Otra Persona", ano := 2003, calificacion := 7,
            descripcion := "Otra descripción suficientemente larga.",
            imagen := "https://example.com/b.jpg", fechaCreacion := 1 } := by
  have h := (((actualizar_especificacion 2025 9 "g" urlHttps
      { peliculas := [pelA], store := Store.present [] } "a" datosValidos
      (by decide)).2 0 (by decide)).2.2 (by decide)).2.2
  exact h.trans (by decide)

/-- C8: `obtenerRecientes` returns the first `min(n, size)` records of
the collection stably sorted by `fechaCreacion` descending: the default
count is 5, the result has length `min n size`, is sorted most-recent
first, is a prefix-sublist of the full stable sort — which is a
permutation of the collection and, being stable, keeps the relative
order of records with equal `fechaCreacion` (its restriction to any
fixed timestamp equals the restriction of the original list) —, a count
at least the size returns the whole sorted collection, and on the three
records `pelA`, `pelA2`, `pelB` created in that order,
`obtenerRecientes 2` returns `[pelB, pelA2]`. -/
theorem obtenerRecientes_especificacion (l : List Pelicula) (n : Nat) (d : Int)
    (s : ManagerState) :
    obtenerRecientesDefault s = obtenerRecientes s 5 ∧
    (obtenerRecientesList n l).length = min n l.length ∧
    (obtenerRecientesList n l).Pairwise masReciente ∧
    (obtenerRecientesList n l).Sublist (ordenarPorFechaDesc l) ∧
    (ordenarPorFechaDesc l).Perm l ∧
    (ordenarPorFechaDesc l).filter (fun p => p.fechaCreacion == d)
        = l.filter (fun p => p.fechaCreacion == d) ∧
    (l.length ≤ n → obtenerRecientesList n l = ordenarPorFechaDesc l) ∧
    obtenerRecientesList 2 [pelA, pelA2, pelB] = [pelB, pelA2] := by
  have hperm : (ordenarPorFechaDesc l).Perm l :=
    List.perm_insertionSort masReciente l
  have hsorted : (ordenarPorFechaDesc l).Pairwise masReciente :=
    List.sorted_insertionSort masReciente l
  refine ⟨rfl, ?_, ?_, ?_, hperm, ?_, ?_, ?_⟩
  · simp [obtenerRecientesList, List.length_take, hperm.length_eq]
  · exact hsorted.sublist (List.take_sublist n _)
  · exact List.take_sublist n _
  · have hpair : (l.filter (fun p => p.fechaCreacion == d)).Pairwise masReciente := by
      refine List.pairwise_of_forall_mem_list ?_
      intro a ha b hb
      have hda : a.fechaCreacion = d := by
        have := (List.mem_filter.mp ha).2
        exact eq_of_beq this
      have hdb : b.fechaCreacion = d := by
        have := (List.mem_filter.mp hb).2
        exact eq_of_beq this
      unfold masReciente
      rw [hda, hdb]
    have hsub : (l.filter (fun p => p.fechaCreacion == d)).Sublist
        (ordenarPorFechaDesc l) :=
      List.sublist_insertionSort hpair (List.filter_sublist l)
    have hsub2 : (l.filter (fun p => p.fechaCreacion == d)).Sublist
        ((ordenarPorFechaDesc l).filter (fun p => p.fechaCreacion == d)) := by
      have := hsub.filter (fun p => p.fechaCreacion == d)
      rwa [List.filter_filter, (by
        funext p
        cases hp : (p.fechaCreacion == d) <;> rfl :
          (fun p => (p.fechaCreacion == d) && (p.fechaCreacion == d))
            = fun p : Pelicula => p.fechaCreacion == d)] at this
    have hlen : (l.filter (fun p => p.fechaCreacion == d)).length
        = ((ordenarPorFechaDesc l).filter (fun p => p.fechaCreacion == d)).length :=
      (hperm.filter (fun p => p.fechaCreacion == d)).length_eq.symm
    exact (hsub2.eq_of_length hlen).symm
  · intro hn
    unfold obtenerRecientesList
    exact List.take_of_length_le (by rw [hperm.length_eq]; exact hn)
  · decide

/-- C8 witness: with a count (5) at least the collection size (2), the
whole sorted collection is returned. -/
theorem obtenerRecientes_especificacion_witness :
    obtenerRecientesList 5 [pelA, pelB] = ordenarPorFechaDesc [pelA, pelB] :=
  (obtenerRecientes_especificacion [pelA, pelB] 5 0
    { peliculas := [], store := Store.absent }).2.2.2.2.2.2.1 (by decide)

/-- C2 (counterexample): `cargarPeliculas` deserializes without
validating.  A store holding `badJSON` (one-character title) loads into
a manager whose collection contains that record, which fails
validation — so not every reachable state consists of validated
records. -/
theorem cargar_sin_validar_counterexample :
    (mkManager gidTest 0 (Store.present [badJSON])).peliculas
        = [reconstruir (gidTest 0) 0 badJSON] ∧
    ((reconstruir (gidTest 0) 0 badJSON).validar 2025 urlHttps).valido = false := by
  decide

set_option maxRecDepth 80000 in
/-- C2 (amended): a record that fails validation is never admitted or
persisted by the mutating operations — `agregar` rejects it with the
joined messages and leaves the state untouched, and starting from an
all-valid collection every `agregar`, `actualizar` and `eliminar`
result is again all-valid — and the built-in default seed set passes
validation (for any current year from 2009 on and any URL test
accepting its image URLs); but records deserialized from the store at
load time are not validated, so an invalid stored record does enter the
collection. -/
theorem validez_preservada (cy now : Int) (genId : String)
    (urlOk : String → Bool) (s : ManagerState) (id : String)
    (datos : DatosPelicula) (q : Pelicula)
    (hall : ∀ p ∈ s.peliculas, (p.validar cy urlOk).valido = true) :
    ((q.validar cy urlOk).valido = false →
      agregar cy urlOk s q
        = ({ exito := false,
             mensaje := String.intercalate "\n" (q.validar cy urlOk).errores }, s)) ∧
    (∀ p ∈ (agregar cy urlOk s q).2.peliculas, (p.validar cy urlOk).valido = true) ∧
    (∀ p ∈ (actualizar cy now genId urlOk s id datos).2.peliculas,
      (p.validar cy urlOk).valido = true) ∧
    (∀ p ∈ (eliminar s id).2.peliculas, (p.validar cy urlOk).valido = true) ∧
    (∀ (gid : Nat → String) (now2 cy2 : Int) (urlOk2 : String → Bool),
      (2009:Int) ≤ cy2 →
      (∀ p ∈ peliculasIniciales gid now2, urlOk2 p.imagen = true) →
      ∀ p ∈ peliculasIniciales gid now2, (p.validar cy2 urlOk2).valido = true) := by
  refine ⟨agregar_invalido_eq, ?_, ?_, ?_, ?_⟩
  · intro p hp
    cases hv : (q.validar cy urlOk).valido with
    | false =>
        rw [agregar_invalido_eq hv] at hp
        exact hall p hp
    | true =>
        rw [agregar_valido_eq hv] at hp
        simp only [guardarPeliculas, List.mem_append, List.mem_singleton] at hp
        rcases hp with hp | rfl
        · exact hall p hp
        · exact hv
  · intro p hp
    cases h : s.peliculas.findIdx? (fun x => x.id == id) with
    | none =>
        rw [actualizar_none_eq h] at hp
        exact hall p hp
    | some i =>
        cases hv : ((peliculaActualizada now genId s id datos i).validar cy
            urlOk).valido with
        | false =>
            rw [actualizar_some_invalido_eq h hv] at hp
            exact hall p hp
        | true =>
            rw [actualizar_some_valido_eq h hv] at hp
            simp only [guardarPeliculas] at hp
            rcases List.mem_or_eq_of_mem_set hp with hp | rfl
            · exact hall p hp
            · exact hv
  · intro p hp
    unfold eliminar at hp
    cases h : s.peliculas.findIdx? (fun x => x.id == id) with
    | none =>
        rw [h] at hp
        exact hall p hp
    | some i =>
        rw [h] at hp
        simp only [guardarPeliculas] at hp
        exact hall p ((List.eraseIdx_sublist _ i).subset hp)
  · intro gid now2 cy2 urlOk2 hcy hurl p hp
    have himg := hurl p hp
    simp only [peliculasIniciales, List.mem_cons, List.not_mem_nil, or_false] at hp
    rcases hp with rfl | rfl | rfl | rfl | rfl | rfl | rfl | rfl <;>
      simp only [Pelicula.make] at himg <;>
      refine validar_valido_of_reglas ?_ ?_ ?_ ?_ ?_ ?_ ?_ <;>
      first
      | (rw [vTitulo_make]; decide)
      | (rw [vGenero_make]; decide)
      | (rw [vDirector_make]; decide)
      | (rw [vDescripcion_make]; decide)
      | (rw [vCalificacion_make]; decide)
      | (rw [vAno_make]
         simp only [Bool.or_eq_false_iff, decide_eq_false_iff_not]
         omega)
      | (rw [vImagen_make, himg]; decide)

/-- C2 witness: adding the invalid `pelMalTitulo` to the all-valid state
`[pelA]` is rejected with the title message and leaves the state
untouched, and the mutated states after a valid add stay all-valid. -/
theorem validez_preservada_witness :
    agregar 2025 urlHttps { peliculas := [pelA], store := Store.present [] }
        pelMalTitulo
      = ({ exito := false,
           mensaje := String.intercalate "\n"
             ((pelMalTitulo.validar 2025 urlHttps).errores) },
         { peliculas := [pelA], store := Store.present [] }) ∧
    (∀ p ∈ (agregar 2025 urlHttps { peliculas := [pelA], store := Store.present [] }
        pelB).2.peliculas, (p.validar 2025 urlHttps).valido = true) := by
  have h := validez_preservada 2025 9 "g" urlHttps
    { peliculas := [pelA], store := Store.present [] } "a" datosValidos pelMalTitulo
    (by decide)
  have h2 := validez_preservada 2025 9 "g" urlHttps
    { peliculas := [pelA], store := Store.present [] } "a" datosValidos pelB
    (by decide)
  exact ⟨h.1 (by decide), h2.2.1⟩

end Cineflix
